import Mathlib

/-!
Verification of `rindexer_core/src/generator/networks_bindings.rs`:
the network-bindings code generator.  Rust strings are modelled as Lean
`String` (a list of characters); `str::to_uppercase` / `str::to_lowercase`
are modelled character-wise with `Char.toUpper` / `Char.toLower` (basic
latin case mapping), plus a refined lowercase model (`toLowercaseU`) that
captures the one-to-many Unicode expansion of U+0130, where the basic-latin
approximation and the program diverge.  Machine integers only ever appear via
`Display` formatting, so `u64` is modelled as `Nat`.
-/

/-- Model of Rust `str::to_uppercase`, applied character by character. -/
def toUppercase (s : String) : String :=
  ⟨s.data.map Char.toUpper⟩

/-- Model of Rust `str::to_lowercase`, applied character by character. -/
def toLowercase (s : String) : String :=
  ⟨s.data.map Char.toLower⟩

/-- Modelled from the spec: the repository type `Code` (crate::types::code) is
not under src/; the spec's Unit Assembler "concatenates results into one
complete generated text unit", so `Code` is a plain string, `Code::new` the
identity and `Code::push_str` string concatenation. -/
abbrev Code := String

/-- Modelled from the spec: the repository type `Network`
(crate::manifest::yaml) is not under src/; per the spec's data model it is a
record with an identifying `name`, a connection `url` copied verbatim, and an
optional numeric rate-limit hint `compute_units_per_second`. -/
structure Network where
  name : String
  url : String
  compute_units_per_second : Option Nat

/-- Embeds `network_provider_name_from_name`: `format!("{}_PROVIDER", name.to_uppercase())`. -/
def network_provider_name_from_name (network_name : String) : String :=
  toUppercase network_name ++ "_PROVIDER"

/-- Embeds `network_provider_name`. -/
def network_provider_name (network : Network) : String :=
  network_provider_name_from_name network.name

/-- Embeds `network_provider_fn_name`: `format!("get_{}", network_provider_name(network).to_lowercase())`. -/
def network_provider_fn_name (network : Network) : String :=
  "get_" ++ toLowercase (network_provider_name network)

/-- Embeds `network_provider_fn_name_by_name`. -/
def network_provider_fn_name_by_name (network_name : String) : String :=
  "get_" ++ toLowercase (network_provider_name_from_name network_name)

/-- Embeds `generate_network_lazy_provider_code`, reproducing the raw string
template byte for byte (including the indentation inside the Rust raw string
literal). -/
def generate_network_lazy_provider_code (network : Network) : Code :=
  "\n            static ref " ++ network_provider_name network
    ++ ": Arc<Provider<RetryClient<Http>>> = create_retry_client(\""
    ++ network.url ++ "\", "
    ++ (match network.compute_units_per_second with
        | some compute_units_per_second =>
            "Some(" ++ toString compute_units_per_second ++ ")"
        | none => "None")
    ++ ").expect(\"Error creating provider\");\n        "

/-- Embeds `generate_network_provider_code`, reproducing the raw string
template byte for byte. -/
def generate_network_provider_code (network : Network) : Code :=
  "\n            pub fn " ++ network_provider_fn_name network
    ++ "() -> Arc<Provider<RetryClient<Http>>> \x7b\n                "
    ++ network_provider_name network
    ++ ".clone()\n            \x7d\n        "

/-- The fixed header block of `generate_networks_code`: the auto-generation
warning, the import declarations and the opening of the `lazy_static!`
container block, byte for byte as in the Rust raw string literal. -/
def networksCodeHeader : Code :=
  "\n            /// THIS IS A GENERATED FILE. DO NOT MODIFY MANUALLY.\n            ///\n            /// This file was auto generated by rindexer - https://github.com/joshstevens19/rindexer.\n            /// Any manual changes to this file will be overwritten.\n            \n            use ethers::providers::\x7bProvider, Http, RetryClient\x7d;\n            use rindexer_core::lazy_static;\n            use rindexer_core::provider::create_retry_client;\n            use std::sync::Arc;\n\n            lazy_static! \x7b\n        "

/-- Embeds `generate_networks_code`: start from the header, push the lazy
provider fragment of every network, close the container block, then push the
accessor fragment of every network. -/
def generate_networks_code (networks : List Network) : Code :=
  let output := networksCodeHeader
  let output := networks.foldl
    (fun acc network => acc ++ generate_network_lazy_provider_code network) output
  let output := output ++ "\x7d"
  let output := networks.foldl
    (fun acc network => acc ++ generate_network_provider_code network) output
  output

/-- Concatenation of the fragments produced for each network, in input order. -/
def concatMapCode (f : Network → Code) : List Network → Code
  | [] => ""
  | network :: rest => f network ++ concatMapCode f rest

/-- Does the list `s` start with the list `frag`? -/
def startsWithL : List Char → List Char → Bool
  | [], _ => true
  | _ :: _, [] => false
  | c :: cs, d :: ds => c == d && startsWithL cs ds

/-- Does `frag` occur as a contiguous run inside `s`? -/
def occursIn (frag : List Char) : List Char → Bool
  | [] => startsWithL frag []
  | d :: ds => startsWithL frag (d :: ds) || occursIn frag ds

/-- Does the string `frag` occur as a contiguous substring of `s`? -/
def stringOccurs (frag s : String) : Bool :=
  occursIn frag.data s.data

theorem startsWithL_iff (frag : List Char) : ∀ s : List Char,
    startsWithL frag s = true ↔ ∃ t, s = frag ++ t := by
  induction frag with
  | nil =>
      intro s
      simp [startsWithL]
  | cons c cs ih =>
      intro s
      cases s with
      | nil =>
          simp [startsWithL]
      | cons d ds =>
          simp only [startsWithL, Bool.and_eq_true, beq_iff_eq, ih ds,
            List.cons_append, List.cons.injEq]
          constructor
          · rintro ⟨rfl, t, rfl⟩
            exact ⟨t, rfl, rfl⟩
          · rintro ⟨t, rfl, rfl⟩
            exact ⟨rfl, t, rfl⟩

theorem occursIn_iff (frag : List Char) : ∀ s : List Char,
    occursIn frag s = true ↔ ∃ a b, s = a ++ frag ++ b := by
  intro s
  induction s with
  | nil =>
      simp only [occursIn, startsWithL_iff]
      constructor
      · rintro ⟨t, ht⟩
        rcases List.append_eq_nil.mp ht.symm with ⟨h1, h2⟩
        exact ⟨[], [], by simp [h1]⟩
      · rintro ⟨a, b, hab⟩
        rcases List.append_eq_nil.mp hab.symm with ⟨ha, hb⟩
        rcases List.append_eq_nil.mp ha with ⟨ha2, hf⟩
        exact ⟨[], by simp [hf]⟩
  | cons d ds ih =>
      simp only [occursIn, Bool.or_eq_true, startsWithL_iff, ih]
      constructor
      · rintro (⟨t, ht⟩ | ⟨a, b, hab⟩)
        · exact ⟨[], t, by simp [ht]⟩
        · exact ⟨d :: a, b, by simp [hab]⟩
      · rintro ⟨a, b, hab⟩
        cases a with
        | nil =>
            exact Or.inl ⟨b, by simpa using hab⟩
        | cons x xs =>
            simp only [List.cons_append] at hab
            injection hab with h1 h2
            exact Or.inr ⟨xs, b, h2⟩

theorem stringOccurs_of_eq (frag a b s : String) (h : s = a ++ frag ++ b) :
    stringOccurs frag s = true := by
  subst h
  exact (occursIn_iff frag.data _).mpr ⟨a.data, b.data, by simp⟩

/-- Refined model of one step of Rust `char::to_lowercase` (Rust std, outside
this repository): Unicode full lowercase mapping can expand one character to
several.  The character U+0130 (LATIN CAPITAL LETTER I WITH DOT ABOVE) lowers
to "i" followed by U+0307 (COMBINING DOT ABOVE); on every other character
appearing in the inputs considered here (basic-latin letters, digits,
punctuation, and U+0307, which has no lowercase mapping) the mapping agrees
with the single-character `Char.toLower` fallback used below. -/
def rustLowercaseChar (c : Char) : List Char :=
  if c = Char.ofNat 0x130 then [Char.ofNat 0x69, Char.ofNat 0x307]
  else [Char.toLower c]

/-- Refined model of Rust `str::to_lowercase`: concatenation of the per-character
lowercase expansions. -/
def toLowercaseU (s : String) : String :=
  ⟨s.data.flatMap rustLowercaseChar⟩

/-- The accessor-identifier derivation of `network_provider_fn_name_by_name`
with the refined lowercase model `toLowercaseU` in place of the basic-latin
approximation (Rust `to_uppercase` fixes both U+0130 and U+0307, so the
storage-identifier derivation needs no refinement on these inputs). -/
def network_provider_fn_name_by_name_unicode (network_name : String) : String :=
  "get_" ++ toLowercaseU (network_provider_name_from_name network_name)

theorem storage_identifier_injective {a b : String}
    (h : toUppercase a ≠ toUppercase b) :
    network_provider_name_from_name a ≠ network_provider_name_from_name b := by
  intro heq
  apply h
  have hd := congrArg String.data heq
  simp only [network_provider_name_from_name, String.data_append] at hd
  exact String.ext (List.append_cancel_right hd)

theorem foldl_append_eq_concatMapCode (f : Network → Code) :
    ∀ (networks : List Network) (init : Code),
      networks.foldl (fun acc network => acc ++ f network) init
        = init ++ concatMapCode f networks := by
  intro networks
  induction networks with
  | nil =>
      intro init
      simp [concatMapCode]
  | cons network rest ih =>
      intro init
      simp only [List.foldl_cons, concatMapCode, ih, String.append_assoc]

theorem lazy_decl_contains_name (network : Network) :
    stringOccurs (network_provider_name network)
      (generate_network_lazy_provider_code network) = true := by
  refine stringOccurs_of_eq _ "\n            static ref "
    (": Arc<Provider<RetryClient<Http>>> = create_retry_client(\""
      ++ network.url ++ "\", "
      ++ (match network.compute_units_per_second with
          | some compute_units_per_second =>
              "Some(" ++ toString compute_units_per_second ++ ")"
          | none => "None")
      ++ ").expect(\"Error creating provider\");\n        ") _ ?_
  simp [generate_network_lazy_provider_code, String.append_assoc]

theorem lazy_decl_contains_url (network : Network) :
    stringOccurs network.url (generate_network_lazy_provider_code network) = true := by
  refine stringOccurs_of_eq _
    ("\n            static ref " ++ network_provider_name network
      ++ ": Arc<Provider<RetryClient<Http>>> = create_retry_client(\"")
    ("\", "
      ++ (match network.compute_units_per_second with
          | some compute_units_per_second =>
              "Some(" ++ toString compute_units_per_second ++ ")"
          | none => "None")
      ++ ").expect(\"Error creating provider\");\n        ") _ ?_
  simp [generate_network_lazy_provider_code, String.append_assoc]

theorem lazy_decl_contains_none {network : Network}
    (h : network.compute_units_per_second = none) :
    stringOccurs "None" (generate_network_lazy_provider_code network) = true := by
  refine stringOccurs_of_eq _
    ("\n            static ref " ++ network_provider_name network
      ++ ": Arc<Provider<RetryClient<Http>>> = create_retry_client(\""
      ++ network.url ++ "\", ")
    ").expect(\"Error creating provider\");\n        " _ ?_
  simp [generate_network_lazy_provider_code, h, String.append_assoc]

theorem lazy_decl_contains_some {network : Network} (v : Nat)
    (h : network.compute_units_per_second = some v) :
    stringOccurs ("Some(" ++ toString v ++ ")")
      (generate_network_lazy_provider_code network) = true := by
  refine stringOccurs_of_eq _
    ("\n            static ref " ++ network_provider_name network
      ++ ": Arc<Provider<RetryClient<Http>>> = create_retry_client(\""
      ++ network.url ++ "\", ")
    ").expect(\"Error creating provider\");\n        " _ ?_
  simp [generate_network_lazy_provider_code, h, String.append_assoc]

/-- The single-network descriptor of the spec's concrete scenario. -/
def ethNetwork : Network :=
  { name := "Ethereum", url := "https://eth.example/rpc", compute_units_per_second := none }

/-- A second descriptor, with a present rate-limit hint. -/
def polygonNetwork : Network :=
  { name := "Polygon", url := "https://poly.example/rpc", compute_units_per_second := some 660 }

/-- Helper identifiers for the decomposition of a storage declaration around
the rate-limit slot. -/
def lazyProviderDeclBefore (name url : String) : String :=
  "\n            static ref " ++ network_provider_name_from_name name
    ++ ": Arc<Provider<RetryClient<Http>>> = create_retry_client(\"" ++ url ++ "\", "

/-- The fixed tail of a storage declaration, after the rate-limit slot. -/
def lazyProviderDeclAfter : String :=
  ").expect(\"Error creating provider\");\n        "

/-- C1: for every input sequence, the output of `generate_networks_code` is the
fixed header, then the storage-declaration fragments in input order (one per
input, no deduplication), then the closing brace of the container block, then
the accessor-function fragments in input order; hence every storage
declaration precedes the container close, which precedes every accessor
function. -/
theorem generate_networks_code_ordering (networks : List Network) :
    generate_networks_code networks
      = networksCodeHeader
        ++ concatMapCode generate_network_lazy_provider_code networks
        ++ "\x7d"
        ++ concatMapCode generate_network_provider_code networks := by
  simp only [generate_networks_code, foldl_append_eq_concatMapCode, String.append_assoc]

/-- C2: for the descriptor named "Ethereum" with url "https://eth.example/rpc"
and absent rate limit, the storage identifier is "ETHEREUM_PROVIDER", the
accessor identifier is "get_ethereum_provider", the storage declaration embeds
the literal url and the absent marker, the accessor embeds the storage
identifier, and the storage declaration precedes the accessor in the output. -/
theorem ethereum_concrete_scenario :
    network_provider_name_from_name "Ethereum" = "ETHEREUM_PROVIDER"
    ∧ network_provider_fn_name_by_name "Ethereum" = "get_ethereum_provider"
    ∧ stringOccurs "https://eth.example/rpc"
        (generate_network_lazy_provider_code ethNetwork) = true
    ∧ stringOccurs "None" (generate_network_lazy_provider_code ethNetwork) = true
    ∧ stringOccurs "ETHEREUM_PROVIDER"
        (generate_network_provider_code ethNetwork) = true
    ∧ generate_networks_code [ethNetwork]
        = networksCodeHeader ++ generate_network_lazy_provider_code ethNetwork
          ++ "\x7d" ++ generate_network_provider_code ethNetwork :=
  ⟨by decide, by decide, by decide, by decide, by decide, rfl⟩

/-- C3: the storage identifier is the upper-cased name with the fixed suffix
"_PROVIDER" appended, and the accessor identifier is the fixed literal "get_"
prepended to the lower-casing of the storage identifier; both are pure
functions of the name alone. -/
theorem identifier_derivation_scheme (name : String) :
    network_provider_name_from_name name = toUppercase name ++ "_PROVIDER"
    ∧ network_provider_fn_name_by_name name
        = "get_" ++ toLowercase (network_provider_name_from_name name) :=
  ⟨rfl, rfl⟩

/-- C4: with an absent rate limit the storage declaration carries the literal
marker "None" (which contains no digit) in the rate-limit slot, and with a
present value v it carries "Some(v)" with exactly that value; absence is never
rendered as a number. -/
theorem rate_limit_rendering (name url : String) (v : Nat) :
    generate_network_lazy_provider_code
        { name := name, url := url, compute_units_per_second := none }
        = lazyProviderDeclBefore name url ++ "None" ++ lazyProviderDeclAfter
    ∧ generate_network_lazy_provider_code
        { name := name, url := url, compute_units_per_second := some v }
        = lazyProviderDeclBefore name url
          ++ ("Some(" ++ toString v ++ ")") ++ lazyProviderDeclAfter
    ∧ (("None" : String).data.all fun c => ! c.isDigit) = true := by
  refine ⟨?_, ?_, by decide⟩
  · simp [generate_network_lazy_provider_code, lazyProviderDeclBefore,
      lazyProviderDeclAfter, network_provider_name, String.append_assoc]
  · simp [generate_network_lazy_provider_code, lazyProviderDeclBefore,
      lazyProviderDeclAfter, network_provider_name, String.append_assoc]

/-- C5 counterexample: for the concrete descriptor with an absent rate limit,
the emitted storage declaration contains neither the literal text "absent" nor
the literal text "present(": the actual markers are "None" / "Some(value)". -/
theorem rate_limit_literal_marker_counterexample :
    ¬(stringOccurs "absent" (generate_network_lazy_provider_code ethNetwork) = true
      ∨ stringOccurs "present(" (generate_network_lazy_provider_code ethNetwork) = true) := by
  decide

/-- C5 (amended): every storage-declaration fragment textually embeds the
storage identifier, the descriptor's url verbatim, and for the rate-limit
hint either the literal text "Some(value)" (with the value) or the literal
text "None". -/
theorem storage_declaration_embeds_fields (network : Network) :
    stringOccurs (network_provider_name network)
        (generate_network_lazy_provider_code network) = true
    ∧ stringOccurs network.url (generate_network_lazy_provider_code network) = true
    ∧ (network.compute_units_per_second = none →
        stringOccurs "None" (generate_network_lazy_provider_code network) = true)
    ∧ (∀ v, network.compute_units_per_second = some v →
        stringOccurs ("Some(" ++ toString v ++ ")")
          (generate_network_lazy_provider_code network) = true) :=
  ⟨lazy_decl_contains_name network, lazy_decl_contains_url network,
    fun h => lazy_decl_contains_none h,
    fun v h => lazy_decl_contains_some v h⟩

/-- C5 witness: the amended statement applied to concrete descriptors with
an absent and with a present rate limit. -/
theorem storage_declaration_embeds_fields_witness :
    stringOccurs "None" (generate_network_lazy_provider_code ethNetwork) = true
    ∧ stringOccurs ("Some(" ++ toString 660 ++ ")")
        (generate_network_lazy_provider_code polygonNetwork) = true :=
  ⟨(storage_declaration_embeds_fields ethNetwork).2.2.1 rfl,
    (storage_declaration_embeds_fields polygonNetwork).2.2.2 660 rfl⟩

/-- C6: `generate_networks_code` is deterministic; it is a pure function of
the input sequence, so two calls on the same input produce identical output. -/
theorem generate_networks_code_deterministic (networks : List Network) :
    generate_networks_code networks = generate_networks_code networks := rfl

/-- C7 counterexample: the name U+0130 (LATIN CAPITAL LETTER I WITH DOT
ABOVE) and the name "I" followed by U+0307 (COMBINING DOT ABOVE) are non-empty,
distinct, and case-insensitively distinct (their upper-cased forms differ),
and their storage identifiers differ, yet under the refined lowercase model of
Rust `str::to_lowercase` both derive the same accessor identifier: the
name-to-accessor-identifier mapping of the program is not injective over such
a collection. -/
theorem identifier_injectivity_counterexample :
    toUppercase "\u0130" ≠ toUppercase "I\u0307"
    ∧ ("\u0130" : String) ≠ "" ∧ ("I\u0307" : String) ≠ ""
    ∧ ("\u0130" : String) ≠ "I\u0307"
    ∧ network_provider_name_from_name "\u0130" ≠ network_provider_name_from_name "I\u0307"
    ∧ network_provider_fn_name_by_name_unicode "\u0130"
        = network_provider_fn_name_by_name_unicode "I\u0307" := by
  decide

/-- C7 (amended): over any collection of names that are pairwise distinct
after upper-casing (case-insensitively distinct), the derived storage
identifiers are pairwise distinct; the proof appends the fixed suffix and
cancels it, so it is independent of the case-mapping table and transfers to
the full Unicode mapping. -/
theorem identifier_injectivity_amended (names : List String)
    (hdist : names.Pairwise fun a b => toUppercase a ≠ toUppercase b) :
    (names.map network_provider_name_from_name).Pairwise (· ≠ ·) :=
  List.pairwise_map.mpr (hdist.imp fun h => storage_identifier_injective h)

/-- C7 witness: the amended injectivity theorem applied to the concrete
collection ["Ethereum", "Polygon"]. -/
theorem identifier_injectivity_amended_witness :
    (["Ethereum", "Polygon"].Pairwise fun a b => toUppercase a ≠ toUppercase b)
    ∧ (["Ethereum", "Polygon"].map network_provider_name_from_name).Pairwise (· ≠ ·) :=
  ⟨by decide, identifier_injectivity_amended ["Ethereum", "Polygon"] (by decide)⟩

set_option maxRecDepth 8192 in
/-- C8: on the empty input sequence `generate_networks_code` returns exactly
the fixed header (auto-generation warning plus imports plus container open)
followed by the container close, with no storage declarations and no accessor
functions, and a repeated call yields the same string. -/
theorem generate_networks_code_empty :
    generate_networks_code [] = networksCodeHeader ++ "\x7d"
    ∧ stringOccurs "THIS IS A GENERATED FILE. DO NOT MODIFY MANUALLY."
        networksCodeHeader = true
    ∧ stringOccurs "use ethers::providers::" networksCodeHeader = true
    ∧ stringOccurs "lazy_static! \x7b" networksCodeHeader = true
    ∧ generate_networks_code [] = generate_networks_code [] :=
  ⟨rfl, by decide, by decide, by decide, rfl⟩

/-- C9: on two descriptors with case-insensitively equal names,
`generate_networks_code` still returns normally with both storage-declaration
fragments emitted in order (no duplicate detection, no deduplication), and
both fragments embed the identical storage identifier. -/
theorem duplicate_names_not_detected (n₁ n₂ : Network)
    (h : toUppercase n₁.name = toUppercase n₂.name) :
    network_provider_name n₁ = network_provider_name n₂
    ∧ generate_networks_code [n₁, n₂]
        = networksCodeHeader
          ++ generate_network_lazy_provider_code n₁
          ++ generate_network_lazy_provider_code n₂
          ++ "\x7d"
          ++ generate_network_provider_code n₁
          ++ generate_network_provider_code n₂
    ∧ stringOccurs (network_provider_name n₁)
        (generate_network_lazy_provider_code n₁) = true
    ∧ stringOccurs (network_provider_name n₁)
        (generate_network_lazy_provider_code n₂) = true := by
  have hname : network_provider_name n₁ = network_provider_name n₂ := by
    simp [network_provider_name, network_provider_name_from_name, h]
  refine ⟨hname, rfl, lazy_decl_contains_name n₁, ?_⟩
  rw [hname]
  exact lazy_decl_contains_name n₂

/-- C9 witness: the duplicate-name theorem applied to two concrete
descriptors whose names differ only in case. -/
theorem duplicate_names_not_detected_witness :
    toUppercase "Eth" = toUppercase "ETH"
    ∧ network_provider_name
        { name := "Eth", url := "https://one.example", compute_units_per_second := none }
      = network_provider_name
        { name := "ETH", url := "https://two.example", compute_units_per_second := some 1 } :=
  ⟨by decide,
    (duplicate_names_not_detected
      { name := "Eth", url := "https://one.example", compute_units_per_second := none }
      { name := "ETH", url := "https://two.example", compute_units_per_second := some 1 }
      (by decide)).1⟩

/-- C10: the two public accessor-name entry points agree: predicting the
accessor identifier from the name alone matches what full generation embeds. -/
theorem fn_name_entry_points_agree (network : Network) :
    network_provider_fn_name network = network_provider_fn_name_by_name network.name := rfl
